import Mathlib

/-!
Verification of the Ridges local validation harness
(`local_validation_local.py`).

The development shallowly embeds the pure logic of `LocalValidator`:
problem selection (`get_sample_problems`), per-problem outcome
construction (`run_agent_on_problem`), test-result extraction
(`_parse_test_results`), and score aggregation (`calculate_scores`).
Python strings are modelled as Lean `String`s, with hand-rolled
substring search, `str.split`, and `str.strip` that mirror Python's
semantics (for the ASCII inputs that occur here).  Floats appear only
as ratios of counts, so rates are modelled exactly with `ℚ`.
-/

/-- Decides whether `needle` occurs at the head of `hay`
(Python `hay.startswith(needle)`). -/
def listIsPre : List Char → List Char → Bool
  | [], _ => true
  | _ :: _, [] => false
  | a :: as, b :: bs => a == b && listIsPre as bs

/-- Decides whether `needle` occurs somewhere inside `hay`
(list form of Python `needle in hay`). -/
def listHasSub (needle : List Char) : List Char → Bool
  | [] => needle.isEmpty
  | c :: rest => listIsPre needle (c :: rest) || listHasSub needle rest

/-- Python's substring test `needle in hay`. -/
def strContains (hay needle : String) : Bool :=
  listHasSub needle.toList hay.toList

/-- If `sep` is a leading segment of `hay`, returns the remainder. -/
def dropPre : List Char → List Char → Option (List Char)
  | [], hay => some hay
  | _ :: _, [] => none
  | n :: ns, h :: hs => if n == h then dropPre ns hs else none

/-- Worker for Python `str.split(sep)` with a non-empty separator.
`fuel` only bounds the recursion; every step consumes at least one
character of `hay`, so `fuel = hay.length` is always enough and the
`fuel = 0` branch with a non-empty `hay` is never reached. -/
def splitGo (sep : List Char) : Nat → List Char → List Char → List (List Char)
  | _, [], cur => [cur.reverse]
  | 0, hay, cur => [cur.reverse ++ hay]
  | fuel + 1, c :: rest, cur =>
    match dropPre sep (c :: rest) with
    | some rest2 => cur.reverse :: splitGo sep fuel rest2 []
    | none => splitGo sep fuel rest (c :: cur)

/-- Python `s.split(sep)` for a non-empty separator: leftmost,
non-overlapping matches, keeping empty segments.  (Python raises on an
empty separator; the harness only ever splits on `"\n"`, `" - "` and
`":"`, so that case is mapped to the identity segmentation.) -/
def pySplit (sep s : String) : List String :=
  match sep.toList with
  | [] => [s]
  | c :: cs => (splitGo (c :: cs) s.length s.toList []).map (fun l => ⟨l⟩)

/-- Python `s.strip()`: drop leading and trailing whitespace. -/
def pyStrip (s : String) : String :=
  ⟨((s.toList.dropWhile Char.isWhitespace).reverse.dropWhile Char.isWhitespace).reverse⟩

/-- One parsed test outcome, as produced by `_parse_test_results`:
a test name and a raw status string (`"pass"`, `"fail"`, ...). -/
structure TestResult where
  name : String
  status : String
deriving DecidableEq, Repr

/-- One step of the structured-region loop of
`LocalValidator._parse_test_results` (the `for line in lines` body).
The state is the `in_test_results` flag together with the results
accumulated so far. -/
def parseLine (st : Bool × List TestResult) (line : String) : Bool × List TestResult :=
  let inR := st.1
  let acc := st.2
  if strContains line "========== TEST RESULTS ==========" then (true, acc)
  else if strContains line "========== LOGS ==========" then (false, acc)
  else if inR && !(pyStrip line == "") then
    if strContains line " - " &&
        (strContains line "pass" || strContains line "fail" || strContains line "skip") then
      let parts := pySplit " - " line
      if 3 ≤ parts.length then
        (inR, acc ++ [⟨pyStrip (parts.headD ""), pyStrip (parts.getLastD "")⟩])
      else (inR, acc)
    else (inR, acc)
  else (inR, acc)

/-- One step of the fallback loop of `_parse_test_results`: lines
holding the literal `PASSED`/`FAILED` markers, test name taken before
the first colon. -/
def fallbackLine (acc : List TestResult) (line : String) : List TestResult :=
  if strContains line "PASSED" then
    acc ++ [⟨pyStrip ((pySplit ":" line).headD ""), "pass"⟩]
  else if strContains line "FAILED" then
    acc ++ [⟨pyStrip ((pySplit ":" line).headD ""), "fail"⟩]
  else acc

/-- `LocalValidator._parse_test_results`: scan the delimited
`TEST RESULTS` region; if it produced nothing, rescan every line in the
old `PASSED`/`FAILED` format. -/
def parse_test_results (output : String) : List TestResult :=
  let lines := pySplit "\n" output
  let res := (lines.foldl parseLine (false, [])).2
  if res.isEmpty then lines.foldl fallbackLine [] else res

/-- Terminal status of one problem run. -/
inductive Status
  | success
  | timeout
  | error
deriving DecidableEq, Repr

/-- The status-classification `if`-chain of
`LocalValidator.run_agent_on_problem` (lines 233-247), applied to the
captured stdout: it yields the status together with the `test_results`
extracted in the two success branches. -/
def classify_and_parse (stdout : String) : Status × List TestResult :=
  if strContains stdout "Container exceeded timeout" then (Status.timeout, [])
  else if strContains stdout "ERROR" && strContains stdout "========== ERROR ==========" then
    (Status.error, [])
  else if strContains stdout "passed" && strContains stdout "failed" &&
      strContains stdout "skipped" then
    (Status.success, parse_test_results stdout)
  else if strContains stdout "SUCCESS" || strContains stdout "test_results" then
    (Status.success, parse_test_results stdout)
  else (Status.error, [])

/-- Modelled from the spec: the classification priority order of §4.3,
stated with the two success conditions merged by disjunction. -/
def classifyStatusSpec (stdout : String) : Status :=
  if strContains stdout "Container exceeded timeout" then Status.timeout
  else if strContains stdout "ERROR" && strContains stdout "========== ERROR ==========" then
    Status.error
  else if (strContains stdout "passed" && strContains stdout "failed" &&
      strContains stdout "skipped")
      || (strContains stdout "SUCCESS" || strContains stdout "test_results") then
    Status.success
  else Status.error

/-- The dataset a problem belongs to.  `get_sample_problems` tags every
selected problem with exactly one of the two suite strings
`"polyglot"` / `"swebench_verified"`, so the suite field is the
two-valued tag of the spec's data model (§3). -/
inductive Suite
  | polyglot
  | swebench_verified
deriving DecidableEq, Repr

/-- A selected problem: `{name, suite, tests}` as assembled by
`get_sample_problems`. -/
structure Problem where
  name : String
  suite : Suite
  tests : List String
deriving DecidableEq, Repr

/-- A per-problem outcome record, as returned by
`run_agent_on_problem`.  Durations are exact rationals in place of
Python floats. -/
structure RunOutcome where
  problem_name : String
  suite : Suite
  status : Status
  duration : ℚ
  test_results : List TestResult
  stdout : String
  stderr : String
  return_code : Int
deriving DecidableEq, Repr

/-- How the `subprocess.run` call inside `run_agent_on_problem` ends:
normal completion with captured streams, exit code and elapsed time;
`subprocess.TimeoutExpired`; or any other exception with its text and
the elapsed time. -/
inductive SubprocessResult
  | completed (stdout stderr : String) (returncode : Int) (duration : ℚ)
  | timedOut
  | failed (excText : String) (duration : ℚ)
deriving DecidableEq, Repr

/-- `LocalValidator.run_agent_on_problem`, as a function of the
problem, the configured timeout (seconds) and the abstracted result of
the subprocess call.  The three branches are the `try` body and the two
`except` handlers of lines 210-281. -/
def run_agent_on_problem (p : Problem) (timeout : Nat) (res : SubprocessResult) : RunOutcome :=
  match res with
  | SubprocessResult.completed out err code dur =>
    let sp := classify_and_parse out
    { problem_name := p.name, suite := p.suite, status := sp.1, duration := dur,
      test_results := sp.2, stdout := out, stderr := err, return_code := code }
  | SubprocessResult.timedOut =>
    { problem_name := p.name, suite := p.suite, status := Status.timeout,
      duration := (timeout : ℚ) + 60, test_results := [], stdout := "",
      stderr := "Process timed out", return_code := -1 }
  | SubprocessResult.failed e dur =>
    { problem_name := p.name, suite := p.suite, status := Status.error,
      duration := dur, test_results := [], stdout := "", stderr := e,
      return_code := -1 }

/-- The `overall` block of `calculate_scores`. -/
structure Overall where
  total_problems : Nat
  successful_problems : Nat
  timeout_problems : Nat
  error_problems : Nat
  success_rate : ℚ
deriving DecidableEq, Repr

/-- The `tests` block of `calculate_scores`. -/
structure TestsScore where
  total_tests : Nat
  passed_tests : Nat
  test_success_rate : ℚ
deriving DecidableEq, Repr

/-- One per-suite entry of the `by_suite` block. -/
structure SuiteScore where
  total : Nat
  successful : Nat
  success_rate : ℚ
deriving DecidableEq, Repr

/-- The `by_suite` block of `calculate_scores`. -/
structure BySuite where
  polyglot : SuiteScore
  swebench_verified : SuiteScore
deriving DecidableEq, Repr

/-- The full score report returned by `calculate_scores`. -/
structure Scores where
  overall : Overall
  tests : TestsScore
  by_suite : BySuite
deriving DecidableEq, Repr

/-- The test-counting double loop of `calculate_scores` (lines
330-339): a left fold accumulating `(total_tests, passed_tests)`.
An outcome contributes only when its status is `success` and its
`test_results` list is non-empty (Python truthiness). -/
def countTests (results : List RunOutcome) : Nat × Nat :=
  results.foldl
    (fun acc r =>
      if r.status == Status.success && !r.test_results.isEmpty then
        r.test_results.foldl
          (fun a t => (a.1 + 1, if t.status == "pass" then a.2 + 1 else a.2)) acc
      else acc)
    (0, 0)

/-- `LocalValidator.calculate_scores`. -/
def calculate_scores (results : List RunOutcome) : Scores :=
  let total_problems := results.length
  let successful_problems := (results.filter (fun r => r.status == Status.success)).length
  let timeout_problems := (results.filter (fun r => r.status == Status.timeout)).length
  let error_problems := (results.filter (fun r => r.status == Status.error)).length
  let tp := countTests results
  let total_tests := tp.1
  let passed_tests := tp.2
  let polyglot_results := results.filter (fun r => r.suite == Suite.polyglot)
  let swebench_results := results.filter (fun r => r.suite == Suite.swebench_verified)
  let polyglot_success := (polyglot_results.filter (fun r => r.status == Status.success)).length
  let swebench_success := (swebench_results.filter (fun r => r.status == Status.success)).length
  { overall :=
      { total_problems := total_problems,
        successful_problems := successful_problems,
        timeout_problems := timeout_problems,
        error_problems := error_problems,
        success_rate :=
          if total_problems > 0 then (successful_problems : ℚ) / total_problems else 0 },
    tests :=
      { total_tests := total_tests,
        passed_tests := passed_tests,
        test_success_rate :=
          if total_tests > 0 then (passed_tests : ℚ) / total_tests else 0 },
    by_suite :=
      { polyglot :=
          { total := polyglot_results.length,
            successful := polyglot_success,
            success_rate :=
              if !polyglot_results.isEmpty then
                (polyglot_success : ℚ) / polyglot_results.length
              else 0 },
        swebench_verified :=
          { total := swebench_results.length,
            successful := swebench_success,
            success_rate :=
              if !swebench_results.isEmpty then
                (swebench_success : ℚ) / swebench_results.length
              else 0 } } }

/-- One record of the polyglot catalog file (the fields
`get_sample_problems` reads). -/
structure PolyglotEntry where
  name : String
  tests : List String
deriving DecidableEq, Repr

/-- One record of the SWE-bench catalog file.  A key missing from the
JSON record (`dict.get(key, [])`) is modelled as the empty list. -/
structure SwebenchEntry where
  instance_id : String
  fail_to_pass : List String
  pass_to_pass : List String
deriving DecidableEq, Repr

/-- How a polyglot catalog record becomes a sample problem. -/
def polyglotToProblem (p : PolyglotEntry) : Problem :=
  { name := p.name, suite := Suite.polyglot, tests := p.tests }

/-- How a SWE-bench catalog record becomes a sample problem. -/
def swebenchToProblem (p : SwebenchEntry) : Problem :=
  { name := p.instance_id, suite := Suite.swebench_verified,
    tests := p.fail_to_pass ++ p.pass_to_pass }

/-- The hard-coded `focused_problems` list of `get_sample_problems`.
In the Python source the entries `"proverb"` and `"scale-generator"`
are adjacent string literals with no comma between them, so the
interpreter concatenates them into the single element
`"proverbscale-generator"`; the list therefore has 20 elements, not
21. -/
def focused_problems : List String :=
  ["affine-cipher",
   "robot-name",
   "pig-latin",
   "poker",
   "grep",
   "rest-api",
   "phone-number",
   "pov",
   "hungman",
   "proverbscale-generator",
   "beer-song",
   "bowling",
   "connect",
   "food-chain",
   "book-store",
   "list-ops",
   "grade-school",
   "dot-dsl",
   "forth",
   "react"]

/-- `LocalValidator.get_sample_problems`, as a function of the two
catalog file contents.  `none` models a catalog file that does not
exist (`Path.exists()` false): that catalog contributes nothing. -/
def get_sample_problems (focused : Bool) (polyglot : Option (List PolyglotEntry))
    (swebench : Option (List SwebenchEntry)) : List Problem :=
  if focused then
    (match polyglot with
     | none => []
     | some ps =>
       (ps.filter (fun p => focused_problems.contains p.name)).map polyglotToProblem)
    ++
    (match swebench with
     | none => []
     | some ss =>
       (ss.filter (fun p => focused_problems.contains p.instance_id)).map swebenchToProblem)
  else
    (match polyglot with
     | none => []
     | some ps => (ps.take 5).map polyglotToProblem)
    ++
    (match swebench with
     | none => []
     | some ss => (ss.take 5).map swebenchToProblem)

/-- Exception-explicit version of `parseLine`: the element accesses
`parts[0]` and `parts[-1]` of the Python source can raise `IndexError`
on an empty list, so they are modelled with `List.head?` /
`List.getLast?`, any failure yielding `none`. -/
def parseLineChecked (st : Bool × List TestResult) (line : String) :
    Option (Bool × List TestResult) :=
  let inR := st.1
  let acc := st.2
  if strContains line "========== TEST RESULTS ==========" then some (true, acc)
  else if strContains line "========== LOGS ==========" then some (false, acc)
  else if inR && !(pyStrip line == "") then
    if strContains line " - " &&
        (strContains line "pass" || strContains line "fail" || strContains line "skip") then
      let parts := pySplit " - " line
      if 3 ≤ parts.length then
        match parts.head?, parts.getLast? with
        | some first, some last => some (inR, acc ++ [⟨pyStrip first, pyStrip last⟩])
        | _, _ => none
      else some (inR, acc)
    else some (inR, acc)
  else some (inR, acc)

/-- Exception-explicit version of `fallbackLine`: the access
`line.split(":")[0]` is modelled with `List.head?`. -/
def fallbackLineChecked (acc : List TestResult) (line : String) :
    Option (List TestResult) :=
  if strContains line "PASSED" then
    match (pySplit ":" line).head? with
    | some first => some (acc ++ [⟨pyStrip first, "pass"⟩])
    | none => none
  else if strContains line "FAILED" then
    match (pySplit ":" line).head? with
    | some first => some (acc ++ [⟨pyStrip first, "fail"⟩])
    | none => none
  else some acc

/-- Exception-explicit version of `_parse_test_results`: it returns
`none` exactly when the Python function would raise. -/
def parse_test_results_checked (output : String) : Option (List TestResult) :=
  let lines := pySplit "\n" output
  match lines.foldlM parseLineChecked (false, []) with
  | none => none
  | some st =>
    if st.2.isEmpty then lines.foldlM fallbackLineChecked [] else some st.2

/-- A concrete 5-record polyglot catalog. -/
def wPolyCatalog : List PolyglotEntry :=
  [⟨"p1", []⟩, ⟨"p2", []⟩, ⟨"p3", []⟩, ⟨"p4", []⟩, ⟨"p5", []⟩]

/-- A concrete 8-record SWE-bench catalog. -/
def wSweCatalog : List SwebenchEntry :=
  [⟨"s1", [], []⟩, ⟨"s2", [], []⟩, ⟨"s3", [], []⟩, ⟨"s4", [], []⟩,
   ⟨"s5", [], []⟩, ⟨"s6", [], []⟩, ⟨"s7", [], []⟩, ⟨"s8", [], []⟩]

/-- C1: for every captured stdout string, the status classification of
`run_agent_on_problem` follows the spec's priority order (timeout
marker, then ERROR banner, then the two success signatures merged by
disjunction, otherwise error), and the output is handed to the result
parser exactly in the success case. -/
theorem classify_follows_spec_priority (s : String) :
    classify_and_parse s =
      (classifyStatusSpec s,
       if classifyStatusSpec s = Status.success then parse_test_results s else []) := by
  unfold classify_and_parse classifyStatusSpec
  split_ifs <;> simp_all

/-- C7: on the given concrete captured text, the result parser returns
exactly the two results `foo ↦ pass` and `bar ↦ fail`, in order. -/
theorem parse_concrete_two_results :
    parse_test_results "========== TEST RESULTS ==========\nfoo - no category - pass\nbar - no category - fail\n========== LOGS ==========" =
      [⟨"foo", "pass"⟩, ⟨"bar", "fail"⟩] := by decide

/-- C2 counterexample: a two-segment region line such as
`"foo - pass"` yields no result at all, because the source additionally
requires at least three `" - "`-separated segments
(`len(parts) >= 3`). -/
theorem two_segment_line_yields_no_result :
    parse_test_results "========== TEST RESULTS ==========\nfoo - pass\n========== LOGS ==========" = [] := by
  decide

/-- C2 (amended): inside the `TEST RESULTS` region, a non-empty line
that contains the separator `" - "`, one of the tokens
pass/fail/skip, and splits into at least three segments makes the
parser append one result whose name is the first segment (trimmed) and
whose status the last segment (trimmed); two-segment lines are
skipped. -/
theorem region_line_parsed (inR : Bool) (acc : List TestResult) (line : String)
    (hm1 : strContains line "========== TEST RESULTS ==========" = false)
    (hm2 : strContains line "========== LOGS ==========" = false)
    (hr : inR = true)
    (hne : pyStrip line ≠ "")
    (hsep : strContains line " - " = true)
    (htok : (strContains line "pass" || strContains line "fail"
              || strContains line "skip") = true)
    (hlen : 3 ≤ (pySplit " - " line).length) :
    parseLine (inR, acc) line =
      (true, acc ++ [⟨pyStrip ((pySplit " - " line).headD ""),
                     pyStrip ((pySplit " - " line).getLastD "")⟩]) := by
  subst hr
  simp [parseLine, hm1, hm2, hne, hsep, htok, hlen]

/-- Witness for the amended C2 theorem at a concrete region line. -/
theorem region_line_parsed_witness :
    parseLine (true, []) "foo - no category - pass" = (true, [⟨"foo", "pass"⟩]) := by
  have h := region_line_parsed true [] "foo - no category - pass" (by decide) (by decide)
    rfl (by decide) (by decide) (by decide) (by decide)
  rw [h]
  decide

theorem splitGo_ne_nil (sep : List Char) :
    ∀ (fuel : Nat) (hay cur : List Char), splitGo sep fuel hay cur ≠ [] := by
  intro fuel
  induction fuel with
  | zero => intro hay cur; cases hay <;> simp [splitGo]
  | succ n ih =>
    intro hay cur
    cases hay with
    | nil => simp [splitGo]
    | cons c rest =>
      cases h : dropPre sep (c :: rest) with
      | none => simpa [splitGo, h] using ih rest (c :: cur)
      | some rest2 => simp [splitGo, h]

theorem pySplit_ne_nil (sep s : String) : pySplit sep s ≠ [] := by
  unfold pySplit
  cases h : sep.toList with
  | nil => simp
  | cons c cs => simpa using splitGo_ne_nil (c :: cs) s.length s.toList []

theorem parseLineChecked_eq (st : Bool × List TestResult) (line : String) :
    parseLineChecked st line = some (parseLine st line) := by
  unfold parseLineChecked parseLine
  cases hp : pySplit " - " line with
  | nil => exact absurd hp (pySplit_ne_nil " - " line)
  | cons a l =>
    cases hl : (a :: l).getLast? with
    | none => simp at hl
    | some last =>
      simp only [hp, hl, List.head?_cons, List.getLastD_eq_getLast?, Option.getD_some]
      split_ifs <;> rfl

theorem fallbackLineChecked_eq (acc : List TestResult) (line : String) :
    fallbackLineChecked acc line = some (fallbackLine acc line) := by
  unfold fallbackLineChecked fallbackLine
  cases hp : pySplit ":" line with
  | nil => exact absurd hp (pySplit_ne_nil ":" line)
  | cons a l => split_ifs <;> simp [hp]

theorem foldlM_of_eq_some {α β : Type} (f : β → α → β) (g : β → α → Option β)
    (hfg : ∀ b a, g b a = some (f b a)) :
    ∀ (l : List α) (b : β), l.foldlM g b = some (l.foldl f b) := by
  intro l
  induction l with
  | nil => intro b; rfl
  | cons a l ih => intro b; simp [hfg, ih]

/-- C6: the result parser is total.  The exception-explicit model
`parse_test_results_checked` (in which every partial element access of
the Python source returns `none` on failure) succeeds on every string
input and agrees with `parse_test_results`; in particular no input,
the empty string included, can make the parser raise. -/
theorem parse_results_total (s : String) :
    parse_test_results_checked s = some (parse_test_results s) := by
  simp only [parse_test_results_checked, parse_test_results]
  rw [foldlM_of_eq_some parseLine parseLineChecked parseLineChecked_eq]
  by_cases h : ((pySplit "\n" s).foldl parseLine (false, [])).2.isEmpty
  · simp [h, foldlM_of_eq_some fallbackLine fallbackLineChecked fallbackLineChecked_eq]
  · simp [h]

/-- C8: when the subprocess exceeds the outer bound, the runner returns
a timeout outcome with empty test results and duration exactly
`timeout + 60`; on any other launch or runtime failure it returns an
error outcome with the exception text as stderr and exit code -1. -/
theorem runner_timeout_error_outcomes (p : Problem) (t : Nat) (e : String) (d : ℚ) :
    ((run_agent_on_problem p t SubprocessResult.timedOut).status = Status.timeout
      ∧ (run_agent_on_problem p t SubprocessResult.timedOut).test_results = []
      ∧ (run_agent_on_problem p t SubprocessResult.timedOut).duration = (t : ℚ) + 60)
    ∧ ((run_agent_on_problem p t (SubprocessResult.failed e d)).status = Status.error
      ∧ (run_agent_on_problem p t (SubprocessResult.failed e d)).stderr = e
      ∧ (run_agent_on_problem p t (SubprocessResult.failed e d)).return_code = -1) :=
  ⟨⟨rfl, rfl, rfl⟩, ⟨rfl, rfl, rfl⟩⟩

theorem filter_suite_partition (rs : List RunOutcome) :
    (rs.filter (fun r => r.suite == Suite.polyglot)).length
      + (rs.filter (fun r => r.suite == Suite.swebench_verified)).length = rs.length := by
  induction rs with
  | nil => rfl
  | cons r rs ih =>
    cases h : r.suite <;> simp [List.filter_cons, h] <;> omega

/-- C3: for every non-empty outcome list, the two `by_suite` totals of
`calculate_scores` sum to `overall.total_problems`. -/
theorem by_suite_totals_sum (rs : List RunOutcome) (h : rs ≠ []) :
    (calculate_scores rs).by_suite.polyglot.total
      + (calculate_scores rs).by_suite.swebench_verified.total
      = (calculate_scores rs).overall.total_problems := by
  simpa [calculate_scores] using filter_suite_partition rs

/-- Witness for the C3 theorem at a one-element outcome list. -/
theorem by_suite_totals_sum_witness :
    ([⟨"p", Suite.polyglot, Status.success, 0, [], "", "", 0⟩] : List RunOutcome) ≠ []
    ∧ (calculate_scores [⟨"p", Suite.polyglot, Status.success, 0, [], "", "", 0⟩]).by_suite.polyglot.total
      + (calculate_scores [⟨"p", Suite.polyglot, Status.success, 0, [], "", "", 0⟩]).by_suite.swebench_verified.total
      = (calculate_scores [⟨"p", Suite.polyglot, Status.success, 0, [], "", "", 0⟩]).overall.total_problems :=
  ⟨by simp, by_suite_totals_sum _ (by simp)⟩

/-- C4: `calculate_scores` never divides by zero: every rate whose
denominator is zero is defined to be zero (overall success rate, test
success rate, and each per-suite success rate). -/
theorem rates_zero_on_zero_denominator (rs : List RunOutcome) :
    ((calculate_scores rs).overall.total_problems = 0 →
        (calculate_scores rs).overall.success_rate = 0)
    ∧ ((calculate_scores rs).tests.total_tests = 0 →
        (calculate_scores rs).tests.test_success_rate = 0)
    ∧ ((calculate_scores rs).by_suite.polyglot.total = 0 →
        (calculate_scores rs).by_suite.polyglot.success_rate = 0)
    ∧ ((calculate_scores rs).by_suite.swebench_verified.total = 0 →
        (calculate_scores rs).by_suite.swebench_verified.success_rate = 0) := by
  refine ⟨?_, ?_, ?_, ?_⟩ <;> intro h <;> simp only [calculate_scores] at h ⊢
  · simp [h]
  · simp [h]
  · rw [List.length_eq_zero] at h; simp [h]
  · rw [List.length_eq_zero] at h; simp [h]

/-- Witness for the C4 theorem on the empty outcome list. -/
theorem rates_zero_witness :
    (calculate_scores []).overall.success_rate = 0
    ∧ (calculate_scores []).tests.test_success_rate = 0
    ∧ (calculate_scores []).by_suite.polyglot.success_rate = 0
    ∧ (calculate_scores []).by_suite.swebench_verified.success_rate = 0 :=
  ⟨(rates_zero_on_zero_denominator []).1 rfl,
   (rates_zero_on_zero_denominator []).2.1 rfl,
   (rates_zero_on_zero_denominator []).2.2.1 rfl,
   (rates_zero_on_zero_denominator []).2.2.2 rfl⟩

theorem testFold_eq (tr : List TestResult) :
    ∀ p : Nat × Nat,
      tr.foldl (fun a t => (a.1 + 1, if t.status == "pass" then a.2 + 1 else a.2)) p
        = (p.1 + tr.length, p.2 + (tr.filter (fun t => t.status == "pass")).length) := by
  induction tr with
  | nil => intro p; simp
  | cons t tr ih =>
    intro p
    simp only [List.foldl_cons]
    rw [ih]
    cases h : t.status == "pass" <;> simp [List.filter_cons, h, Prod.ext_iff] <;> omega

theorem countTests_foldl (rs : List RunOutcome) :
    ∀ p : Nat × Nat,
      rs.foldl
        (fun acc r =>
          if r.status == Status.success && !r.test_results.isEmpty then
            r.test_results.foldl
              (fun a t => (a.1 + 1, if t.status == "pass" then a.2 + 1 else a.2)) acc
          else acc) p
      = (p.1 + ((rs.filter (fun r => r.status == Status.success)).map
              (fun r => r.test_results.length)).sum,
         p.2 + ((rs.filter (fun r => r.status == Status.success)).map
              (fun r => (r.test_results.filter (fun t => t.status == "pass")).length)).sum) := by
  induction rs with
  | nil => intro p; simp
  | cons r rs ih =>
    intro p
    simp only [List.foldl_cons]
    cases hst : r.status == Status.success
    · rw [if_neg (by simp [hst]), ih]
      simp [List.filter_cons, hst]
    · cases hte : r.test_results.isEmpty
      · rw [if_pos (by simp [hst, hte]), testFold_eq, ih]
        have hf : List.filter (fun r => r.status == Status.success) (r :: rs)
            = r :: List.filter (fun r => r.status == Status.success) rs := by
          simp [List.filter_cons, hst]
        rw [hf]
        simp only [List.map_cons, List.sum_cons, Prod.mk.injEq]
        constructor <;> omega
      · rw [if_neg (by simp [hst, hte]), ih]
        have hnil : r.test_results = [] := by simpa using hte
        simp [List.filter_cons, hst, hnil]

theorem countTests_eq (rs : List RunOutcome) :
    countTests rs
      = (((rs.filter (fun r => r.status == Status.success)).map
            (fun r => r.test_results.length)).sum,
         ((rs.filter (fun r => r.status == Status.success)).map
            (fun r => (r.test_results.filter (fun t => t.status == "pass")).length)).sum) := by
  simpa [countTests] using countTests_foldl rs (0, 0)

/-- C5: the aggregator's test counters range only over outcomes with
status `success`: `total_tests` is the summed length of the
`test_results` of success outcomes, `passed_tests` the summed number of
their `pass` entries, so a timeout or error outcome contributes zero to
both regardless of its `test_results` field. -/
theorem test_counts_only_success (rs : List RunOutcome) :
    (calculate_scores rs).tests.total_tests
        = ((rs.filter (fun r => r.status == Status.success)).map
            (fun r => r.test_results.length)).sum
    ∧ (calculate_scores rs).tests.passed_tests
        = ((rs.filter (fun r => r.status == Status.success)).map
            (fun r => (r.test_results.filter (fun t => t.status == "pass")).length)).sum := by
  constructor <;> simp [calculate_scores, countTests_eq]

/-- C9: in default mode the selector takes at most the first 5 entries
of each catalog in file order: a 5-element and an 8-element catalog
yield exactly 10 problems whose names list each catalog's first names
in original order, and a missing polyglot catalog simply contributes no
problems (the selection is exactly the other catalog's part). -/
theorem default_selection_cap (ps : List PolyglotEntry) (ss : List SwebenchEntry)
    (hp : ps.length = 5) (hs : ss.length = 8) :
    (get_sample_problems false (some ps) (some ss)).length = 10
    ∧ (get_sample_problems false (some ps) (some ss)).map Problem.name
        = ps.map PolyglotEntry.name ++ (ss.take 5).map SwebenchEntry.instance_id
    ∧ get_sample_problems false none (some ss)
        = (get_sample_problems false (some ps) (some ss)).drop 5 := by
  refine ⟨?_, ?_, ?_⟩
  · simp [get_sample_problems, List.length_take, hp, hs]
  · have ht : ps.take 5 = ps := by rw [← hp]; exact ps.take_length
    simp only [get_sample_problems, Bool.false_eq_true, if_false, List.map_append,
      List.map_map, List.map_take, ht]
    rfl
  · have hA : ((ps.take 5).map polyglotToProblem).length = 5 := by
      simp [List.length_take, hp]
    simp only [get_sample_problems, Bool.false_eq_true, if_false, List.nil_append]
    rw [List.drop_left' hA]

/-- Witness for the C9 theorem on concrete 5- and 8-record catalogs. -/
theorem default_selection_cap_witness :
    wPolyCatalog.length = 5 ∧ wSweCatalog.length = 8
    ∧ (get_sample_problems false (some wPolyCatalog) (some wSweCatalog)).length = 10
    ∧ (get_sample_problems false (some wPolyCatalog) (some wSweCatalog)).map Problem.name
        = wPolyCatalog.map PolyglotEntry.name
          ++ (wSweCatalog.take 5).map SwebenchEntry.instance_id
    ∧ get_sample_problems false none (some wSweCatalog)
        = (get_sample_problems false (some wPolyCatalog) (some wSweCatalog)).drop 5 :=
  ⟨rfl, rfl, (default_selection_cap wPolyCatalog wSweCatalog rfl rfl).1,
   (default_selection_cap wPolyCatalog wSweCatalog rfl rfl).2.1,
   (default_selection_cap wPolyCatalog wSweCatalog rfl rfl).2.2⟩

/-- C10: the hard-coded focused subset contains the single concatenated
name `"proverbscale-generator"` (two adjacent Python string literals
with no comma), so no focused selection over any catalogs ever contains
a problem named `"proverb"` or `"scale-generator"`, while a catalog
entry named `"proverbscale-generator"` is selected. -/
theorem focused_list_concatenated (po : Option (List PolyglotEntry))
    (sw : Option (List SwebenchEntry)) (p : Problem)
    (hmem : p ∈ get_sample_problems true po sw) :
    p.name ≠ "proverb" ∧ p.name ≠ "scale-generator"
    ∧ ∀ ts : List String,
        get_sample_problems true (some [⟨"proverbscale-generator", ts⟩]) none
          = [⟨"proverbscale-generator", Suite.polyglot, ts⟩] := by
  have hname : focused_problems.contains p.name = true := by
    simp only [get_sample_problems, if_true] at hmem
    rcases List.mem_append.1 hmem with h | h
    · cases po with
      | none => simp at h
      | some ps =>
        rcases List.mem_map.1 h with ⟨q, hq, hpq⟩
        have hf := List.of_mem_filter hq
        rw [← hpq]
        exact hf
    · cases sw with
      | none => simp at h
      | some ss =>
        rcases List.mem_map.1 h with ⟨q, hq, hpq⟩
        have hf := List.of_mem_filter hq
        rw [← hpq]
        exact hf
  refine ⟨?_, ?_, ?_⟩
  · intro hc
    rw [hc] at hname
    exact absurd hname (by decide)
  · intro hc
    rw [hc] at hname
    exact absurd hname (by decide)
  · intro ts
    have hin : "proverbscale-generator" ∈ focused_problems := by decide
    simp [get_sample_problems, polyglotToProblem, List.filter_cons, hin]

/-- Witness for the C10 theorem: a selected problem from a concrete
one-record catalog. -/
theorem focused_list_concatenated_witness :
    (⟨"affine-cipher", Suite.polyglot, []⟩ : Problem)
        ∈ get_sample_problems true (some [⟨"affine-cipher", []⟩]) none
    ∧ ((⟨"affine-cipher", Suite.polyglot, []⟩ : Problem).name ≠ "proverb"
      ∧ (⟨"affine-cipher", Suite.polyglot, []⟩ : Problem).name ≠ "scale-generator"
      ∧ ∀ ts : List String,
          get_sample_problems true (some [⟨"proverbscale-generator", ts⟩]) none
            = [⟨"proverbscale-generator", Suite.polyglot, ts⟩]) :=
  ⟨by decide,
   focused_list_concatenated (some [⟨"affine-cipher", []⟩]) none
     ⟨"affine-cipher", Suite.polyglot, []⟩ (by decide)⟩
